import Mathlib

/-!
Verification development for the elastalert server's process-supervision and
rule-test subsystem.

The embedding covers two source components:

* `ProcessController` (supervisor of the long-running engine process):
  its status field, process handle, exit-callback list, and the `start`,
  `stop`, exit and error handlers.
* `TestController.testRule` (ad-hoc rule test runner): command-line argument
  construction from the test options, environment merging, stdout/stderr
  accumulation, outcome of the returned promise, and temp-file cleanup.

Each handler is embedded as a pure function on an explicit state, together
with an event trace where the claim speaks about ordering or about effects
(logging, signals, file deletion) rather than about the final state.
-/

namespace ElastalertServer

/-- The status enumeration used by the supervisor
(`IDLE | STARTING | READY | CLOSING | ERROR` in the source). -/
inductive Status where
  | idle
  | starting
  | ready
  | closing
  | error
deriving DecidableEq, Repr

/-- State of a `ProcessController`: the current status, the owned process
handle (`_process`, `none` when the source field is `null`; a live handle is
modelled by its pid), and the ordered list of registered exit callbacks
(`_onExitCallbacks`; an entry is `none` when a `null` callback was pushed,
otherwise an identifier for the callback). -/
structure ProcessController where
  status : Status
  process : Option Nat
  onExitCallbacks : List (Option Nat)
deriving DecidableEq, Repr

/-- The constructor: status `IDLE`, no process handle, no callbacks. -/
def initialController : ProcessController :=
  ⟨Status.idle, none, []⟩

/-- `onExit(cb)` pushes the callback onto the list. -/
def onExit (s : ProcessController) (cb : Option Nat) : ProcessController :=
  { s with onExitCallbacks := s.onExitCallbacks ++ [cb] }

/-- Primitive events performed by the exit handler, in order. -/
inductive PCEvent where
  | setStatus (st : Status)
  | clearProcess
  | invoke (cb : Nat)
deriving DecidableEq, Repr

/-- The sequence of primitive steps the `exit` listener performs for exit code
`code`: set the status (`IDLE` when `code === 0`, else `ERROR`), clear
`_process`, then call each non-`null` registered callback in registration
order. -/
def exitTrace (s : ProcessController) (code : Int) : List PCEvent :=
  (if code = 0 then [PCEvent.setStatus Status.idle] else [PCEvent.setStatus Status.error])
    ++ [PCEvent.clearProcess]
    ++ (s.onExitCallbacks.filterMap id).map PCEvent.invoke

/-- Interpretation of one primitive event on the state, accumulating the list
of callbacks invoked so far. -/
def stepEvent (acc : ProcessController × List Nat) (e : PCEvent) :
    ProcessController × List Nat :=
  match acc, e with
  | (s, out), PCEvent.setStatus st => ({ s with status := st }, out)
  | (s, out), PCEvent.clearProcess => ({ s with process := none }, out)
  | (s, out), PCEvent.invoke cb => (s, out ++ [cb])

/-- Final state and invoked-callback sequence after the exit handler runs. -/
def exitRun (s : ProcessController) (code : Int) : ProcessController × List Nat :=
  (exitTrace s code).foldl stepEvent (s, [])

/-- The `error` listener: log, set status `ERROR`, clear the handle.
No exit callbacks are invoked on this path. -/
def errorHandler (s : ProcessController) : ProcessController :=
  { s with status := Status.error, process := none }

/-- `true` exactly on callback-invocation events. -/
def isInvoke : PCEvent → Bool
  | PCEvent.invoke _ => true
  | _ => false

/-- In trace `t`, no callback invocation happens before the handle is
cleared: every event strictly before the first `clearProcess` is not an
invocation. -/
def clearBeforeInvokes (t : List PCEvent) : Bool :=
  (t.takeWhile (fun e => !(e == PCEvent.clearProcess))).all (fun e => !(isInvoke e))

/-- Observable events of a `start()` call. The guard in the source tests
`this._process !== null`; when it fires the call only logs a warning.
Otherwise the call runs the synchronous index-create pre-flight and then
spawns the engine process. -/
inductive StartEvent where
  | warnAlreadyRunning
  | indexCreate
  | spawnProcess
deriving DecidableEq, Repr

/-- The events a `start()` call performs from state `s`. -/
def startEvents (s : ProcessController) : List StartEvent :=
  if s.process ≠ none then [StartEvent.warnAlreadyRunning]
  else [StartEvent.indexCreate, StartEvent.spawnProcess]

/-- State after `start()` returns: unchanged when the handle guard fires;
otherwise the handle is set to the new pid and the status, after passing
through `STARTING`, is `READY`. -/
def start (s : ProcessController) (pid : Nat) : ProcessController :=
  if s.process ≠ none then s
  else { s with status := Status.ready, process := some pid }

/-- Observable events of a `stop()` call. -/
inductive StopEvent where
  | logStopping
  | kill (signal : String)
  | logNotRunning
deriving DecidableEq, Repr

/-- The events a `stop()` call performs from state `s`: with a live handle it
logs, transitions to `CLOSING` and sends `SIGINT`; with no handle it only
logs informationally. -/
def stopEvents (s : ProcessController) : List StopEvent :=
  if s.process ≠ none then [StopEvent.logStopping, StopEvent.kill "SIGINT"]
  else [StopEvent.logNotRunning]

/-- State after `stop()` returns. -/
def stop (s : ProcessController) : ProcessController :=
  if s.process ≠ none then { s with status := Status.closing } else s

/-- Folding the invocation events of a callback list appends the list to the
accumulator and leaves the state unchanged. -/
theorem foldl_invoke_map (l : List Nat) (s : ProcessController) (out : List Nat) :
    (l.map PCEvent.invoke).foldl stepEvent (s, out) = (s, out ++ l) := by
  induction l generalizing out with
  | nil => simp
  | cons a l ih =>
      simp only [List.map_cons, List.foldl_cons, stepEvent, ih, List.append_assoc,
        List.singleton_append]

/-- Claim C3: for every exit with code `c`, the supervisor status becomes
`IDLE` when `c = 0` and `ERROR` otherwise; the owned handle is cleared, and
the handle is cleared before any callback runs; every registered exit
callback is invoked exactly once, in registration order, with `null`
callbacks skipped — regardless of the exit code. -/
theorem exit_settles_state_and_callbacks (s : ProcessController) (code : Int) :
    (exitRun s code).1.status = (if code = 0 then Status.idle else Status.error)
      ∧ (exitRun s code).1.process = none
      ∧ (exitRun s code).2 = s.onExitCallbacks.filterMap id
      ∧ clearBeforeInvokes (exitTrace s code) = true
      ∧ PCEvent.clearProcess ∈ exitTrace s code := by
  by_cases h : code = 0 <;>
    simp [exitRun, exitTrace, h, stepEvent, foldl_invoke_map, clearBeforeInvokes,
      List.takeWhile, isInvoke]

/-- A reachable state with a non-idle status and no live handle: the result
of an exit with code 1 after a successful start from the initial state. -/
def erroredController : ProcessController :=
  (exitRun (start initialController 1) 1).1

/-- Claim C4 counterexample: in the reachable state after a non-zero exit the
status is `ERROR` (not `IDLE`) yet `start()` is not a no-op — it performs the
pre-flight and spawn sequence and installs a new handle, with no intervening
return to `IDLE`. The double-start guard is on the handle, not the status. -/
theorem start_in_error_state_not_noop :
    erroredController.status ≠ Status.idle
      ∧ start erroredController 2 ≠ erroredController
      ∧ startEvents erroredController = [StartEvent.indexCreate, StartEvent.spawnProcess]
      ∧ (start erroredController 2).process = some 2 := by
  decide

/-- Claim C4 (amended): `start()` is a no-op (apart from a warning log)
exactly when a live process handle exists; when the handle is `null` — in
whatever status — the call runs the pre-flight and spawn sequence and
installs the new handle. Hence at most one live handle exists at any time. -/
theorem start_noop_iff_handle_exists (s : ProcessController) (pid : Nat) :
    (s.process ≠ none → start s pid = s ∧ startEvents s = [StartEvent.warnAlreadyRunning])
      ∧ (s.process = none
          → (start s pid).process = some pid
            ∧ (start s pid).status = Status.ready
            ∧ startEvents s = [StartEvent.indexCreate, StartEvent.spawnProcess]) := by
  constructor <;> intro h <;> simp [start, startEvents, h]

/-- Witness for C4 (amended) at a concrete running state and a concrete empty
state. -/
theorem start_noop_iff_handle_exists_witness :
    (start ⟨Status.ready, some 5, []⟩ 9 = ⟨Status.ready, some 5, []⟩
        ∧ startEvents ⟨Status.ready, some 5, []⟩ = [StartEvent.warnAlreadyRunning])
      ∧ (start initialController 9).process = some 9 :=
  ⟨(start_noop_iff_handle_exists ⟨Status.ready, some 5, []⟩ 9).1 (by decide),
   ((start_noop_iff_handle_exists initialController 9).2 rfl).1⟩

/-- Claim C7: `stop()` with no live handle changes nothing (and, being a
total function, never throws); with a live handle it sets the status to
`CLOSING`, keeps the handle, and sends the graceful `SIGINT` signal, leaving
final settlement to the exit handler. -/
theorem stop_contract (s : ProcessController) :
    (s.process = none → stop s = s ∧ stopEvents s = [StopEvent.logNotRunning])
      ∧ (s.process ≠ none
          → (stop s).status = Status.closing
            ∧ (stop s).process = s.process
            ∧ stopEvents s = [StopEvent.logStopping, StopEvent.kill "SIGINT"]) := by
  constructor <;> intro h <;> simp [stop, stopEvents, h]

/-- Witness for C7 at the initial (no-handle) state and at a running state. -/
theorem stop_contract_witness :
    (stop initialController = initialController
        ∧ stopEvents initialController = [StopEvent.logNotRunning])
      ∧ (stop ⟨Status.ready, some 4, []⟩).status = Status.closing :=
  ⟨(stop_contract initialController).1 rfl,
   ((stop_contract ⟨Status.ready, some 4, []⟩).2 (by decide)).1⟩

/-- Claim C10: the double-start guard reads only the process handle — states
agreeing on the handle get the same `start()` events regardless of status;
the spawn-time error handler sets status `ERROR` and clears the handle, and
from any state with a cleared handle (in particular right after the error
handler) `start()` runs the full pre-flight and spawn sequence instead of
being a no-op. -/
theorem start_guard_ignores_status (s s2 : ProcessController) (pid : Nat) :
    (s.process = s2.process → startEvents s = startEvents s2)
      ∧ (errorHandler s).status = Status.error
      ∧ (errorHandler s).process = none
      ∧ startEvents (errorHandler s) = [StartEvent.indexCreate, StartEvent.spawnProcess]
      ∧ (start (errorHandler s) pid).process = some pid
      ∧ (s.process = none
          → startEvents s = [StartEvent.indexCreate, StartEvent.spawnProcess]) := by
  refine ⟨fun h => by simp [startEvents, h], rfl, rfl, by simp [startEvents, errorHandler],
    by simp [start, errorHandler], fun h => by simp [startEvents, h]⟩

/-- Witness for C10: a status-`ERROR` state and the initial state share a
`null` handle, get the same `start()` events, and both proceed to spawn. -/
theorem start_guard_ignores_status_witness :
    startEvents ⟨Status.error, none, []⟩ = startEvents initialController
      ∧ startEvents initialController = [StartEvent.indexCreate, StartEvent.spawnProcess] :=
  ⟨(start_guard_ignores_status ⟨Status.error, none, []⟩ initialController 3).1 rfl,
   (start_guard_ignores_status initialController initialController 3).2.2.2.2.2 rfl⟩

/-! ### TestController.testRule -/

/-- The recognized test options (`options` in the source). `days` is absent
or an integer (the source guard `if (options.days)` is JavaScript truthiness:
absent and `0` are falsy); `format` and `testType` are compared against the
string literals `json`, `schemaOnly`, `countOnly`; `maxResults` is compared
with `> 0`; `alert` is a boolean. -/
structure TestOptions where
  days : Option Int
  format : String
  maxResults : Int
  alert : Bool
  testType : String
deriving DecidableEq, Repr

/-- Arguments contributed by `options.days` (pushed only when truthy). -/
def daysOptions (days : Option Int) : List String :=
  match days with
  | some d => if d ≠ 0 then ["--days", toString d] else []
  | none => []

/-- Arguments contributed by `options.format === 'json'`. -/
def formatOptions (format : String) : List String :=
  if format = "json" then ["--formatted-output"] else []

/-- Arguments contributed by `options.maxResults > 0`. -/
def maxResultsOptions (maxResults : Int) : List String :=
  if maxResults > 0 then ["--max-query-size", toString maxResults] else []

/-- Arguments contributed by `options.alert`. -/
def alertOptions (alert : Bool) : List String :=
  if alert then ["--alert"] else []

/-- Arguments contributed by the `switch (options.testType)`. -/
def testTypeOptions (testType : String) : List String :=
  if testType = "schemaOnly" then ["--schema-only"]
  else if testType = "countOnly" then ["--count-only"]
  else []

/-- The full argument vector `processOptions` handed to the spawned test
process: the module/config prefix, the option-dependent flags in source
order, and the temp rule file path pushed last. -/
def processOptions (elastalertPath : String) (opts : TestOptions)
    (tempFilePath : String) : List String :=
  ["-m", "elastalert.test_rule", "--config", elastalertPath ++ "/config.yaml"]
    ++ daysOptions opts.days
    ++ formatOptions opts.format
    ++ maxResultsOptions opts.maxResults
    ++ alertOptions opts.alert
    ++ testTypeOptions opts.testType
    ++ [tempFilePath]

/-- The five explicit connection parameters read from configuration. -/
structure EsConfig where
  es_host : String
  es_port : String
  use_ssl : String
  es_username : String
  es_password : String
deriving DecidableEq, Repr

/-- The object literal `env` before the merge loop: exactly the five `ES_*`
keys, mapped to the configuration values. -/
def explicitEnv (c : EsConfig) (k : String) : Option String :=
  if k = "ES_HOST" then some c.es_host
  else if k = "ES_PORT" then some c.es_port
  else if k = "ES_USE_SSL" then some c.use_ssl
  else if k = "ES_USERNAME" then some c.es_username
  else if k = "ES_PASSWORD" then some c.es_password
  else none

/-- The environment after the source's merge loop
`for (const key in process.env) { env[key] = process.env[key] }`:
every key defined in the inherited process environment is assigned over the
object, so an inherited binding wins; the explicit configuration value
survives only for keys the inherited environment does not define. -/
def buildEnv (c : EsConfig) (processEnv : String → Option String)
    (k : String) : Option String :=
  match processEnv k with
  | some v => some v
  | none => explicitEnv c k

/-- Outcome of the inner `new Promise(...)` of `testRule`: `resolve`/`reject`
with the value passed, or `pending` when neither callback ever runs. -/
inductive InnerOutcome where
  | resolve (v : String)
  | reject (e : String)
  | pending
deriving DecidableEq, Repr

/-- Outcome of the promise `testRule` returns to its caller (the inner
promise with the trailing `.catch` applied). `resolved none` models
resolution with `undefined`. -/
inductive Outcome where
  | resolved (v : Option String)
  | rejected (e : String)
  | pending
deriving DecidableEq, Repr

/-- One complete run of `testRule`, as the event-loop schedule determines it:
the options, whether a subscriber socket was supplied, the results of the
temp-file write and of the synchronous spawn (`Except.error` models a
rejection value or thrown error, kept as text), the stdout and stderr chunks
in arrival order, the subprocess exit code, and the result of the temp-file
deletion. -/
structure RunScenario where
  opts : TestOptions
  hasSocket : Bool
  writeRes : Except String Unit
  spawnRes : Except String Unit
  stdoutChunks : List String
  stderrChunks : List String
  exitCode : Int
  deleteRes : Except String Unit
deriving Repr

/-- Settlement of the inner promise: a failed write rejects with the write
error; a throwing spawn rejects with the thrown error; exit code 0 resolves
with the accumulated stdout, joined with no separator when
`options.format === 'json'` and with newlines otherwise; a non-zero exit
rejects with the newline-joined stderr when no socket was supplied and
settles nothing when one was. The deletion result is never consulted. -/
def innerOutcome (s : RunScenario) : InnerOutcome :=
  match s.writeRes with
  | Except.error e => InnerOutcome.reject e
  | Except.ok _ =>
    match s.spawnRes with
    | Except.error e => InnerOutcome.reject e
    | Except.ok _ =>
      if s.exitCode = 0 then
        InnerOutcome.resolve
          (if s.opts.format = "json" then String.join s.stdoutChunks
           else String.intercalate "\n" s.stdoutChunks)
      else if s.hasSocket then InnerOutcome.pending
      else InnerOutcome.reject (String.intercalate "\n" s.stderrChunks)

/-- The trailing `.catch((error) => { logger.error(...) })`: a resolution
passes through, a rejection is swallowed and replaced by a resolution with
`undefined` (the handler returns nothing), a pending promise stays pending. -/
def catchLog : InnerOutcome → Outcome
  | InnerOutcome.resolve v => Outcome.resolved (some v)
  | InnerOutcome.reject _ => Outcome.resolved none
  | InnerOutcome.pending => Outcome.pending

/-- Outcome of the promise `testRule` returns to its caller. -/
def testRuleOutcome (s : RunScenario) : Outcome :=
  catchLog (innerOutcome s)

/-- Cleanup actions on the two termination paths. -/
inductive CleanupEffect where
  | deleteTempFile
  | killProcess
deriving DecidableEq, Repr

/-- Cleanup performed by the `exit` listener, for any exit code and whether
or not a socket was supplied: the temp-file deletion is unconditional. -/
def exitCleanup (_hasSocket : Bool) (_exitCode : Int) : List CleanupEffect :=
  [CleanupEffect.deleteTempFile]

/-- Cleanup performed by the subscriber-close listener: kill the test
process, then delete the temp file. -/
def socketCloseCleanup : List CleanupEffect :=
  [CleanupEffect.killProcess, CleanupEffect.deleteTempFile]

/-- The `.catch` attached to each `deleteFile` call: a failed deletion only
produces a log line; a successful one produces nothing. -/
def deleteFileHandled (deleteRes : Except String Unit) : List String :=
  match deleteRes with
  | Except.ok _ => []
  | Except.error _ => ["Failed to delete temporary test file"]

/-- A concrete configuration for counterexamples and witnesses. -/
def cexEsConfig : EsConfig :=
  ⟨"explicit-host", "9200", "false", "user", "pass"⟩

/-- A concrete inherited process environment that defines `ES_HOST` and
nothing else. -/
def cexProcessEnv : String → Option String :=
  fun k => if k = "ES_HOST" then some "inherited-host" else none

/-- Claim C1 counterexample: when the inherited environment also defines
`ES_HOST`, the spawned environment carries the inherited value, not the
explicit configuration value — the merge loop copies `process.env` over the
explicit object, so inherited bindings win. -/
theorem env_inherited_overrides_explicit :
    cexProcessEnv "ES_HOST" = some "inherited-host"
      ∧ buildEnv cexEsConfig cexProcessEnv "ES_HOST" = some "inherited-host"
      ∧ buildEnv cexEsConfig cexProcessEnv "ES_HOST" ≠ some cexEsConfig.es_host := by
  decide

/-- Claim C1 (amended): the subprocess environment maps every key the
inherited process environment defines — the five `ES_*` keys included — to
its inherited value, and falls back to the explicit configuration values
(exactly the five `ES_*` keys) only for keys the inherited environment does
not define. -/
theorem env_merge_inherited_wins (c : EsConfig) (processEnv : String → Option String)
    (k : String) :
    (∀ v, processEnv k = some v → buildEnv c processEnv k = some v)
      ∧ (processEnv k = none → buildEnv c processEnv k = explicitEnv c k) := by
  constructor
  · intro v h
    simp [buildEnv, h]
  · intro h
    simp [buildEnv, h]

/-- Witness for C1 (amended): the inherited `ES_HOST` wins; the undefined
`ES_PORT` falls back to the explicit configuration value. -/
theorem env_merge_inherited_wins_witness :
    buildEnv cexEsConfig cexProcessEnv "ES_HOST" = some "inherited-host"
      ∧ buildEnv cexEsConfig cexProcessEnv "ES_PORT" = explicitEnv cexEsConfig "ES_PORT" :=
  ⟨(env_merge_inherited_wins cexEsConfig cexProcessEnv "ES_HOST").1
      "inherited-host" (by decide),
   (env_merge_inherited_wins cexEsConfig cexProcessEnv "ES_PORT").2 (by decide)⟩

/-- A concrete failing run: write and spawn succeed, no socket, exit code 1,
one stderr chunk. -/
def failScenarioNoSocket : RunScenario :=
  { opts := ⟨none, "text", 0, false, "full"⟩
    hasSocket := false
    writeRes := Except.ok ()
    spawnRes := Except.ok ()
    stdoutChunks := []
    stderrChunks := ["schema error"]
    exitCode := 1
    deleteRes := Except.ok () }

/-- Claim C2 counterexample: on a non-zero exit without a subscriber the
inner promise does reject with the newline-joined stderr, but the promise
`testRule` returns to its caller resolves with `undefined` — the trailing
`.catch` swallows the rejection, so the call does not reject. -/
theorem nonzero_exit_resolves_not_rejects :
    innerOutcome failScenarioNoSocket = InnerOutcome.reject "schema error"
      ∧ testRuleOutcome failScenarioNoSocket = Outcome.resolved none
      ∧ testRuleOutcome failScenarioNoSocket ≠ Outcome.rejected "schema error" := by
  decide

/-- Claim C2 (amended): for every run whose subprocess exits non-zero after a
successful write and spawn: with no subscriber, the inner promise rejects
with the accumulated stderr chunks joined with newlines (and the failure is
logged), but the promise returned to the caller resolves with `undefined`
because the trailing catch swallows the rejection; with a subscriber, the
call neither resolves nor rejects — it stays pending forever. -/
theorem nonzero_exit_behavior (s : RunScenario)
    (hw : s.writeRes = Except.ok ()) (hsp : s.spawnRes = Except.ok ())
    (hc : s.exitCode ≠ 0) :
    (s.hasSocket = false
        → innerOutcome s = InnerOutcome.reject (String.intercalate "\n" s.stderrChunks)
          ∧ testRuleOutcome s = Outcome.resolved none)
      ∧ (s.hasSocket = true
        → innerOutcome s = InnerOutcome.pending
          ∧ testRuleOutcome s = Outcome.pending) := by
  constructor <;> intro h <;>
    simp [innerOutcome, testRuleOutcome, catchLog, hw, hsp, hc, h]

/-- Witness for C2 (amended) at the concrete failing run without a socket. -/
theorem nonzero_exit_behavior_witness :
    innerOutcome failScenarioNoSocket
        = InnerOutcome.reject (String.intercalate "\n" failScenarioNoSocket.stderrChunks)
      ∧ testRuleOutcome failScenarioNoSocket = Outcome.resolved none :=
  (nonzero_exit_behavior failScenarioNoSocket rfl rfl (by decide)).1 rfl

/-- Claim C6: for every run whose subprocess exits with code 0 after a
successful write and spawn, the call resolves with the stdout chunks
concatenated in arrival order — with no separator when `format` is `json`,
and joined with newlines otherwise. -/
theorem exit_zero_resolves_stdout (s : RunScenario)
    (hw : s.writeRes = Except.ok ()) (hsp : s.spawnRes = Except.ok ())
    (hc : s.exitCode = 0) :
    testRuleOutcome s
      = Outcome.resolved (some (if s.opts.format = "json"
          then String.join s.stdoutChunks
          else String.intercalate "\n" s.stdoutChunks)) := by
  simp [testRuleOutcome, innerOutcome, catchLog, hw, hsp, hc]

/-- A concrete successful json-format run with two stdout chunks. -/
def okScenarioJson : RunScenario :=
  { opts := ⟨none, "json", 0, false, "full"⟩
    hasSocket := false
    writeRes := Except.ok ()
    spawnRes := Except.ok ()
    stdoutChunks := ["chunk-a", "chunk-b"]
    stderrChunks := []
    exitCode := 0
    deleteRes := Except.ok () }

/-- Witness for C6: the concrete json-format run resolves with the two
chunks concatenated without a separator. -/
theorem exit_zero_resolves_stdout_witness :
    testRuleOutcome okScenarioJson = Outcome.resolved (some "chunk-achunk-b") := by
  rw [exit_zero_resolves_stdout okScenarioJson rfl rfl rfl]
  decide

/-- Claim C8: the temp file is deleted on every termination path — the exit
listener deletes it unconditionally (any exit code, with or without a
subscriber), and the subscriber-close listener kills the subprocess and
deletes it too; the deletion result never changes the call's outcome, and a
failed deletion (in particular the second of a double deletion) only
produces a log line. -/
theorem temp_file_deleted_on_all_paths (hasSocket : Bool) (code : Int)
    (s : RunScenario) (d : Except String Unit) (e : String) :
    CleanupEffect.deleteTempFile ∈ exitCleanup hasSocket code
      ∧ CleanupEffect.deleteTempFile ∈ socketCloseCleanup
      ∧ CleanupEffect.killProcess ∈ socketCloseCleanup
      ∧ testRuleOutcome { s with deleteRes := d } = testRuleOutcome s
      ∧ deleteFileHandled (Except.error e) = ["Failed to delete temporary test file"]
      ∧ deleteFileHandled (Except.ok ()) = [] := by
  refine ⟨by simp [exitCleanup], by simp [socketCloseCleanup],
    by simp [socketCloseCleanup], rfl, rfl, rfl⟩

/-- A concrete run whose synchronous spawn throws. -/
def spawnFailScenario : RunScenario :=
  { opts := ⟨none, "text", 0, false, "full"⟩
    hasSocket := false
    writeRes := Except.ok ()
    spawnRes := Except.error "ENOENT"
    stdoutChunks := []
    stderrChunks := []
    exitCode := 0
    deleteRes := Except.ok () }

/-- Claim C9: the promise `testRule` returns never rejects — whatever the
run, its outcome is not a rejection, and whenever the inner promise rejects
(write failure, spawn throw, or non-zero exit without subscriber) the
returned promise resolves with `undefined`. -/
theorem testRule_never_rejects (s : RunScenario) (e : String) :
    testRuleOutcome s ≠ Outcome.rejected e
      ∧ (innerOutcome s = InnerOutcome.reject e
          → testRuleOutcome s = Outcome.resolved none) := by
  constructor
  · cases h : innerOutcome s <;> simp [testRuleOutcome, h, catchLog]
  · intro h
    simp [testRuleOutcome, h, catchLog]

/-- Witness for C9 at the concrete run whose spawn throws. -/
theorem testRule_never_rejects_witness :
    testRuleOutcome spawnFailScenario = Outcome.resolved none :=
  (testRule_never_rejects spawnFailScenario "ENOENT").2 (by decide)

/-- Concrete options with `days` present but equal to 0. -/
def cexDaysZeroOptions : TestOptions :=
  ⟨some 0, "text", 0, false, "full"⟩

/-- Claim C5 counterexample: with `days` present but `0` the source guard
`if (options.days)` is falsy, so no `--days` flag is emitted even though
`days` is present; the vector is just the fixed prefix plus the temp path. -/
theorem days_zero_omits_flag :
    cexDaysZeroOptions.days.isSome = true
      ∧ "--days" ∉ processOptions "/opt/elastalert" cexDaysZeroOptions "/tmp/rule.temp"
      ∧ processOptions "/opt/elastalert" cexDaysZeroOptions "/tmp/rule.temp"
        = ["-m", "elastalert.test_rule", "--config", "/opt/elastalert/config.yaml",
           "/tmp/rule.temp"] := by
  decide

/-- The six option-dependent flag literals. -/
def flagTokens : List String :=
  ["--days", "--formatted-output", "--max-query-size", "--alert",
   "--schema-only", "--count-only"]

/-- Membership in the `days` segment. -/
theorem mem_daysOptions (x : String) (days : Option Int) :
    x ∈ daysOptions days
      ↔ ∃ d, days = some d ∧ d ≠ 0 ∧ (x = "--days" ∨ x = toString d) := by
  cases days with
  | none => simp [daysOptions]
  | some d =>
      by_cases h : d = 0 <;> simp [daysOptions, h]

/-- Membership in the `format` segment. -/
theorem mem_formatOptions (x : String) (format : String) :
    x ∈ formatOptions format ↔ (format = "json" ∧ x = "--formatted-output") := by
  by_cases h : format = "json" <;> simp [formatOptions, h]

/-- Membership in the `maxResults` segment. -/
theorem mem_maxResultsOptions (x : String) (m : Int) :
    x ∈ maxResultsOptions m
      ↔ (m > 0 ∧ (x = "--max-query-size" ∨ x = toString m)) := by
  by_cases h : m > 0 <;> simp [maxResultsOptions, h]

/-- Membership in the `alert` segment. -/
theorem mem_alertOptions (x : String) (alert : Bool) :
    x ∈ alertOptions alert ↔ (alert = true ∧ x = "--alert") := by
  cases alert <;> simp [alertOptions]

/-- Membership in the `testType` segment. -/
theorem mem_testTypeOptions (x : String) (testType : String) :
    x ∈ testTypeOptions testType
      ↔ ((testType = "schemaOnly" ∧ x = "--schema-only")
          ∨ (testType = "countOnly" ∧ x = "--count-only")) := by
  by_cases h1 : testType = "schemaOnly"
  · simp [testTypeOptions, h1]
  · by_cases h2 : testType = "countOnly" <;> simp [testTypeOptions, h1, h2]

/-- Membership in the whole argument vector, segment by segment. -/
theorem mem_processOptions (x p t : String) (opts : TestOptions) :
    x ∈ processOptions p opts t
      ↔ (x = "-m" ∨ x = "elastalert.test_rule" ∨ x = "--config"
          ∨ x = p ++ "/config.yaml"
          ∨ x ∈ daysOptions opts.days ∨ x ∈ formatOptions opts.format
          ∨ x ∈ maxResultsOptions opts.maxResults ∨ x ∈ alertOptions opts.alert
          ∨ x ∈ testTypeOptions opts.testType ∨ x = t) := by
  simp [processOptions, List.mem_append, or_assoc]

/-- The final element of the argument vector is the temp file path. -/
theorem processOptions_getLast (p t : String) (opts : TestOptions) :
    (processOptions p opts t).getLast? = some t := by
  have h : ∀ l : List String, (l ++ [t]).getLast? = some t := by
    intro l
    induction l with
    | nil => rfl
    | cons a l ih =>
        rw [List.cons_append, List.getLast?_cons, ih]
        cases l <;> simp
  simp only [processOptions, ← List.append_assoc]
  exact h _

/-- Claim C5 (amended): for every option value — provided the free strings
(the temp path, the config path, and the numeric values rendered as text) are
not themselves flag literals — the argument vector contains the config flag
and path, ends with the temp rule path, and carries `--days` iff `days` is
present with a non-zero value (the source guard is JavaScript truthiness, so
a present `0` emits no flag), `--formatted-output` iff `format` is `json`,
`--max-query-size` iff `maxResults > 0`, `--alert` iff `alert` is true,
`--schema-only` iff `testType` is `schemaOnly`, and `--count-only` iff
`testType` is `countOnly`. -/
theorem processOptions_characterization (p t : String) (opts : TestOptions)
    (ht : t ∉ flagTokens) (hc : p ++ "/config.yaml" ∉ flagTokens)
    (hd : ∀ d, opts.days = some d → toString d ∉ flagTokens)
    (hm : toString opts.maxResults ∉ flagTokens) :
    ("--config" ∈ processOptions p opts t
        ∧ (p ++ "/config.yaml") ∈ processOptions p opts t
        ∧ (processOptions p opts t).getLast? = some t)
      ∧ ("--days" ∈ processOptions p opts t ↔ ∃ d, opts.days = some d ∧ d ≠ 0)
      ∧ ("--formatted-output" ∈ processOptions p opts t ↔ opts.format = "json")
      ∧ ("--max-query-size" ∈ processOptions p opts t ↔ opts.maxResults > 0)
      ∧ ("--alert" ∈ processOptions p opts t ↔ opts.alert = true)
      ∧ ("--schema-only" ∈ processOptions p opts t ↔ opts.testType = "schemaOnly")
      ∧ ("--count-only" ∈ processOptions p opts t ↔ opts.testType = "countOnly") := by
  simp only [flagTokens, List.mem_cons, List.not_mem_nil, or_false, not_or] at ht hc hm
  obtain ⟨ht1, ht2, ht3, ht4, ht5, ht6⟩ := ht
  obtain ⟨hc1, hc2, hc3, hc4, hc5, hc6⟩ := hc
  obtain ⟨hm1, hm2, hm3, hm4, hm5, hm6⟩ := hm
  rcases opts with ⟨days, format, maxResults, alert, testType⟩
  cases days with
  | none =>
      simp [mem_processOptions, mem_daysOptions, mem_formatOptions,
        mem_maxResultsOptions, mem_alertOptions, mem_testTypeOptions,
        processOptions_getLast,
        Ne.symm ht1, Ne.symm ht2, Ne.symm ht3, Ne.symm ht4, Ne.symm ht5, Ne.symm ht6,
        Ne.symm hc1, Ne.symm hc2, Ne.symm hc3, Ne.symm hc4, Ne.symm hc5, Ne.symm hc6,
        Ne.symm hm1, Ne.symm hm2, Ne.symm hm3, Ne.symm hm4, Ne.symm hm5, Ne.symm hm6]
  | some d =>
      have hdtok := hd d rfl
      simp only [flagTokens, List.mem_cons, List.not_mem_nil, or_false, not_or] at hdtok
      obtain ⟨hd1, hd2, hd3, hd4, hd5, hd6⟩ := hdtok
      simp [mem_processOptions, mem_daysOptions, mem_formatOptions,
        mem_maxResultsOptions, mem_alertOptions, mem_testTypeOptions,
        processOptions_getLast,
        Ne.symm ht1, Ne.symm ht2, Ne.symm ht3, Ne.symm ht4, Ne.symm ht5, Ne.symm ht6,
        Ne.symm hc1, Ne.symm hc2, Ne.symm hc3, Ne.symm hc4, Ne.symm hc5, Ne.symm hc6,
        Ne.symm hm1, Ne.symm hm2, Ne.symm hm3, Ne.symm hm4, Ne.symm hm5, Ne.symm hm6,
        Ne.symm hd1, Ne.symm hd2, Ne.symm hd3, Ne.symm hd4, Ne.symm hd5, Ne.symm hd6]

/-- Concrete options exercising every flag branch. -/
def witOptions : TestOptions :=
  ⟨some 3, "json", 5, true, "schemaOnly"⟩

/-- Witness for C5 (amended) at concrete paths and options. -/
theorem processOptions_characterization_witness :
    ("--days" ∈ processOptions "/opt/elastalert" witOptions "/tmp/rule.temp"
        ↔ ∃ d, witOptions.days = some d ∧ d ≠ 0)
      ∧ ("--alert" ∈ processOptions "/opt/elastalert" witOptions "/tmp/rule.temp"
        ↔ witOptions.alert = true) :=
  ⟨(processOptions_characterization "/opt/elastalert" "/tmp/rule.temp" witOptions
      (by decide) (by decide) (by intro d h; cases h; decide) (by decide)).2.1,
   (processOptions_characterization "/opt/elastalert" "/tmp/rule.temp" witOptions
      (by decide) (by decide) (by intro d h; cases h; decide) (by decide)).2.2.2.2.1⟩

end ElastalertServer
